import Mathlib

/-!
Verification of the client-side mood-analytics engine of
src/frontend/src/pages/Insights.tsx (aggregator, streak calculator,
pattern detector, chart projector).

Modelling conventions:
* JS numbers are modelled as exact rationals; JS integer values
  (counts, rounded scores) as Nat / Int.
* Timestamps are integers counting milliseconds; the UTC calendar date
  produced by toISOString is modelled as floor division by the number of
  milliseconds in a day.
* Math.round rounds half toward positive infinity, i.e. floor (x + 1/2).
* The sum-over-length average with the JS fallback expression that maps
  the NaN of an empty list to 0 is modelled by an explicit emptiness test.
* Free-text presentation strings (pattern descriptions, toFixed
  formatting of the averages) are not interpreted by any claim and are
  not modelled; titles and icon tags, which identify the heuristics, are.
-/

/-- Milliseconds in one calendar day, as in the source expression
7 * 24 * 60 * 60 * 1000. -/
def msPerDay : Int := 86400000

/-- MoodEntry record of Insights.tsx (lines 15-28).  The four self-report
scales are rationals standing for JS numbers; activities are booleans. -/
structure MoodEntry where
  id : String
  date : String
  timestamp : Int
  mood : ℚ
  energy : ℚ
  anxiety : ℚ
  sleep : ℚ
  exercise : Bool
  social : Bool
  meditation : Bool
  notes : String
  symptoms : List String
  deriving Repr, DecidableEq

/-- Helper building an entry from the fields the engine reads. -/
def mkEntry (ts : Int) (mood energy anxiety sleep : ℚ)
    (exercise social meditation : Bool) : MoodEntry :=
  { id := "", date := "", timestamp := ts, mood := mood, energy := energy,
    anxiety := anxiety, sleep := sleep, exercise := exercise, social := social,
    meditation := meditation, notes := "", symptoms := [] }

/-- Model of Math.round on a JS number: round half toward positive
infinity. -/
def jsRound (q : ℚ) : ℤ := (q + 1/2).floor

/-- The computable rational floor agrees with the order-theoretic floor. -/
theorem jsRound_eq_floor (q : ℚ) : jsRound q = ⌊q + 1/2⌋ := by
  rw [jsRound, Rat.floor_def' (q + 1/2), ← Rat.floor_def]

/-- Average of a projected field over a list of entries, with the source
fallback (reduce-sum divided by length, then the or-zero guard turning the
NaN of an empty list into 0); Insights.tsx lines 182-185 and 217. -/
def avgBy (f : MoodEntry → ℚ) (l : List MoodEntry) : ℚ :=
  if l.length = 0 then 0 else (l.map f).sum / (l.length : ℚ)

/-- Entries created less than 7 days before the evaluation instant
(Insights.tsx lines 175-177). -/
def last7Days (c : List MoodEntry) (now : Int) : List MoodEntry :=
  c.filter fun e => now - e.timestamp < 7 * msPerDay

/-- Entries created less than 30 days before the evaluation instant
(Insights.tsx lines 178-180). -/
def last30Days (c : List MoodEntry) (now : Int) : List MoodEntry :=
  c.filter fun e => now - e.timestamp < 30 * msPerDay

/-- Average mood over the last-7-days subset (line 182). -/
def avgMood (c : List MoodEntry) (now : Int) : ℚ := avgBy (·.mood) (last7Days c now)

/-- Average energy over the last-7-days subset (line 183). -/
def avgEnergy (c : List MoodEntry) (now : Int) : ℚ := avgBy (·.energy) (last7Days c now)

/-- Average anxiety over the last-7-days subset (line 184). -/
def avgAnxiety (c : List MoodEntry) (now : Int) : ℚ := avgBy (·.anxiety) (last7Days c now)

/-- Average sleep over the last-7-days subset (line 185). -/
def avgSleep (c : List MoodEntry) (now : Int) : ℚ := avgBy (·.sleep) (last7Days c now)

/-- Number of last-7-days entries with exercise true (line 187). -/
def exerciseCount (c : List MoodEntry) (now : Int) : Nat :=
  ((last7Days c now).filter (·.exercise)).length

/-- Number of last-7-days entries with social true (line 188). -/
def socialCount (c : List MoodEntry) (now : Int) : Nat :=
  ((last7Days c now).filter (·.social)).length

/-- Number of last-7-days entries with meditation true (line 189). -/
def meditationCount (c : List MoodEntry) (now : Int) : Nat :=
  ((last7Days c now).filter (·.meditation)).length

/-- UTC calendar-day index of a timestamp, modelling the date part of
toISOString: floor division of the millisecond instant by msPerDay. -/
def dayOf (ts : Int) : Int := Int.fdiv ts msPerDay

/-- Entries sorted by timestamp descending, as the stable JS sort with
comparator b.timestamp - a.timestamp (line 193). -/
def sortByTimestampDesc (c : List MoodEntry) : List MoodEntry :=
  List.insertionSort (fun a b => b.timestamp ≤ a.timestamp) c

/-- Index walk of the streak loop (lines 195-204): the i-th sorted entry
must fall on the calendar day of (now - i days); the count of initial
matches is returned. -/
def streakAux (now : Int) : List MoodEntry → Nat → Nat
  | [], _ => 0
  | e :: rest, i =>
    if dayOf e.timestamp = dayOf (now - (i : Int) * msPerDay) then
      streakAux now rest (i + 1) + 1
    else 0

/-- Current streak (lines 191-204). -/
def currentStreak (c : List MoodEntry) (now : Int) : Nat :=
  streakAux now (sortByTimestampDesc c) 0

/-- Wellness score (lines 206-210). -/
def wellnessScore (c : List MoodEntry) (now : Int) : ℤ :=
  jsRound ((avgMood c now * 0.3 + avgEnergy c now * 0.2 +
    (10 - avgAnxiety c now) * 0.2 + avgSleep c now * 0.15 +
    ((exerciseCount c now : ℚ) / 7 * 10) * 0.1 +
    ((socialCount c now : ℚ) / 7 * 10) * 0.05) * 10)

/-- Prior-week subset (lines 213-216): strictly more than 7 days old and
strictly less than 14 days old. -/
def prevWeek (c : List MoodEntry) (now : Int) : List MoodEntry :=
  c.filter fun e =>
    e.timestamp < now - 7 * msPerDay ∧ e.timestamp > now - 14 * msPerDay

/-- Average mood of the prior-week subset with the or-zero guard
(line 217). -/
def prevWeekAvgMood (c : List MoodEntry) (now : Int) : ℚ :=
  avgBy (·.mood) (prevWeek c now)

/-- Week-over-week mood delta (line 218). -/
def moodChange (c : List MoodEntry) (now : Int) : ℚ :=
  avgMood c now - prevWeekAvgMood c now

/-- Snapshot returned by the stats computation (lines 220-234).  The four
averages are stored as exact values; the toFixed formatting applied in the
source is presentation only. -/
structure StatsSnapshot where
  avgMood : ℚ
  avgEnergy : ℚ
  avgAnxiety : ℚ
  avgSleep : ℚ
  exerciseCount : Nat
  socialCount : Nat
  meditationCount : Nat
  currentStreak : Nat
  wellnessScore : ℤ
  moodChange : ℚ
  totalEntries : Nat
  last7Days : Nat
  last30Days : Nat
  deriving Repr, DecidableEq

/-- Snapshot built for a collection at an evaluation instant. -/
def statsCore (c : List MoodEntry) (now : Int) : StatsSnapshot :=
  { avgMood := avgMood c now, avgEnergy := avgEnergy c now,
    avgAnxiety := avgAnxiety c now, avgSleep := avgSleep c now,
    exerciseCount := exerciseCount c now, socialCount := socialCount c now,
    meditationCount := meditationCount c now,
    currentStreak := currentStreak c now,
    wellnessScore := wellnessScore c now, moodChange := moodChange c now,
    totalEntries := c.length, last7Days := (last7Days c now).length,
    last30Days := (last30Days c now).length }

/-- Aggregator entry point (lines 172-235): the empty collection yields
the null snapshot. -/
def stats (c : List MoodEntry) (now : Int) : Option StatsSnapshot :=
  if c.length = 0 then none else some (statsCore c now)

/-- Pattern kind tag of Insights.tsx line 31. -/
inductive PatternType
  | booster
  | trigger
  | time
  | day
  deriving Repr, DecidableEq

/-- Icon tag attached to each emitted pattern; the five icons identify
the five heuristics (Dumbbell, Users, Moon, Calendar, Brain). -/
inductive PatternIcon
  | dumbbell
  | users
  | moon
  | calendar
  | brain
  deriving Repr, DecidableEq

/-- Detected pattern (lines 30-36); the free-text description field is
presentation only and not modelled. -/
structure Pattern where
  type : PatternType
  title : String
  confidence : ℤ
  icon : PatternIcon
  deriving Repr, DecidableEq

/-- Entries with exercise true (line 244). -/
def withExercise (c : List MoodEntry) : List MoodEntry := c.filter (·.exercise)

/-- Entries with exercise false (line 245). -/
def withoutExercise (c : List MoodEntry) : List MoodEntry :=
  c.filter fun e => !e.exercise

/-- Mean mood of the exercise group (line 247). -/
def avgMoodWithExercise (c : List MoodEntry) : ℚ :=
  ((withExercise c).map (·.mood)).sum / ((withExercise c).length : ℚ)

/-- Mean mood of the non-exercise group (line 248). -/
def avgMoodWithoutExercise (c : List MoodEntry) : ℚ :=
  ((withoutExercise c).map (·.mood)).sum / ((withoutExercise c).length : ℚ)

/-- Exercise-group mood advantage (lines 250-255). -/
def exerciseMoodDiff (c : List MoodEntry) : ℚ :=
  avgMoodWithExercise c - avgMoodWithoutExercise c

/-- Exercise heuristic (lines 243-259). -/
def exercisePattern (c : List MoodEntry) : Option Pattern :=
  if 3 < (withExercise c).length ∧ 3 < (withoutExercise c).length then
    if 1 < exerciseMoodDiff c then
      some { type := .booster, title := "Exercise Boosts Your Mood",
             confidence := min 95 (jsRound (exerciseMoodDiff c * 15)),
             icon := .dumbbell }
    else none
  else none

/-- Entries with social true (line 262). -/
def withSocial (c : List MoodEntry) : List MoodEntry := c.filter (·.social)

/-- Entries with social false (line 263). -/
def withoutSocial (c : List MoodEntry) : List MoodEntry :=
  c.filter fun e => !e.social

/-- Social-group mood advantage (lines 265-268). -/
def socialMoodDiff (c : List MoodEntry) : ℚ :=
  ((withSocial c).map (·.mood)).sum / ((withSocial c).length : ℚ) -
    ((withoutSocial c).map (·.mood)).sum / ((withoutSocial c).length : ℚ)

/-- Social heuristic (lines 261-277). -/
def socialPattern (c : List MoodEntry) : Option Pattern :=
  if 3 < (withSocial c).length ∧ 3 < (withoutSocial c).length then
    if 0.8 < socialMoodDiff c then
      some { type := .booster, title := "Social Connection Helps",
             confidence := min 90 (jsRound (socialMoodDiff c * 12)),
             icon := .users }
    else none
  else none

/-- Entries with sleep at least 7 (line 280). -/
def goodSleep (c : List MoodEntry) : List MoodEntry :=
  c.filter fun e => 7 ≤ e.sleep

/-- Entries with sleep below 5 (line 281). -/
def poorSleep (c : List MoodEntry) : List MoodEntry :=
  c.filter fun e => e.sleep < 5

/-- Good-sleep mood advantage (lines 283-286). -/
def sleepMoodDiff (c : List MoodEntry) : ℚ :=
  ((goodSleep c).map (·.mood)).sum / ((goodSleep c).length : ℚ) -
    ((poorSleep c).map (·.mood)).sum / ((poorSleep c).length : ℚ)

/-- Sleep heuristic (lines 279-295). -/
def sleepPattern (c : List MoodEntry) : Option Pattern :=
  if 2 < (goodSleep c).length ∧ 2 < (poorSleep c).length then
    if 1 < sleepMoodDiff c then
      some { type := .trigger, title := "Poor Sleep Affects Your Mood",
             confidence := min 95 (jsRound (sleepMoodDiff c * 15)),
             icon := .moon }
    else none
  else none

/-- Weekday index of a timestamp, 0 = Sunday through 6 = Saturday; day 0
of the epoch was a Thursday, hence the +4 shift.  Models the locale
weekday name of line 300 (UTC reference frame). -/
def weekdayOf (ts : Int) : Int := (dayOf ts + 4).emod 7

/-- English weekday name of a weekday index. -/
def weekdayName (w : Int) : String :=
  if w = 0 then "Sunday"
  else if w = 1 then "Monday"
  else if w = 2 then "Tuesday"
  else if w = 3 then "Wednesday"
  else if w = 4 then "Thursday"
  else if w = 5 then "Friday"
  else "Saturday"

/-- Distinct weekday keys in first-occurrence order, as the string-keyed
object built on lines 298-303 enumerated by Object.entries. -/
def weekdayKeys (c : List MoodEntry) : List Int :=
  c.foldl
    (fun acc e =>
      if weekdayOf e.timestamp ∈ acc then acc else acc ++ [weekdayOf e.timestamp])
    []

/-- Moods logged on a given weekday, in collection order (line 302). -/
def moodsOnWeekday (c : List MoodEntry) (w : Int) : List ℚ :=
  (c.filter fun e => weekdayOf e.timestamp = w).map (·.mood)

/-- Per-weekday mean moods in key order (lines 305-308). -/
def dayAverages (c : List MoodEntry) : List (Int × ℚ) :=
  (weekdayKeys c).map fun w =>
    (w, (moodsOnWeekday c w).sum / ((moodsOnWeekday c w).length : ℚ))

/-- Reduce picking the weekday with the greatest mean, seeded with the
head element (line 310); first occurrence wins ties. -/
def bestDay (c : List MoodEntry) : Int × ℚ :=
  (dayAverages c).foldl (fun best curr => if best.2 < curr.2 then curr else best)
    ((dayAverages c).headD (0, 0))

/-- Reduce picking the weekday with the least mean, seeded with the head
element (line 311); first occurrence wins ties. -/
def worstDay (c : List MoodEntry) : Int × ℚ :=
  (dayAverages c).foldl (fun worst curr => if curr.2 < worst.2 then curr else worst)
    ((dayAverages c).headD (0, 0))

/-- Day-of-week heuristic (lines 297-321). -/
def dayPattern (c : List MoodEntry) : Option Pattern :=
  if 5 ≤ (dayAverages c).length ∧ 1.5 < (bestDay c).2 - (worstDay c).2 then
    some { type := .day,
           title := weekdayName (worstDay c).1 ++ "s Are Harder for You",
           confidence := 75, icon := .calendar }
  else none

/-- Entries with meditation true (line 324). -/
def withMeditation (c : List MoodEntry) : List MoodEntry :=
  c.filter (·.meditation)

/-- Anxiety drop of the meditation group against the whole collection
(lines 326-329). -/
def meditationAnxietyDrop (c : List MoodEntry) : ℚ :=
  (c.map (·.anxiety)).sum / (c.length : ℚ) -
    ((withMeditation c).map (·.anxiety)).sum / ((withMeditation c).length : ℚ)

/-- Meditation heuristic (lines 323-338). -/
def meditationPattern (c : List MoodEntry) : Option Pattern :=
  if 3 < (withMeditation c).length then
    if 1 < meditationAnxietyDrop c then
      some { type := .booster, title := "Meditation Reduces Anxiety",
             confidence := 85, icon := .brain }
    else none
  else none

/-- Pattern detector (lines 238-341): below 7 entries no heuristic runs;
otherwise the heuristics push their patterns in the fixed order exercise,
social, sleep, day-of-week, meditation. -/
def patterns (c : List MoodEntry) : List Pattern :=
  if c.length < 7 then []
  else
    (exercisePattern c).toList ++ (socialPattern c).toList ++
      (sleepPattern c).toList ++ (dayPattern c).toList ++
      (meditationPattern c).toList

/-- Row of the trend chart (lines 344-355); the date label is modelled by
the calendar-day index. -/
structure ChartPoint where
  date : Int
  mood : ℚ
  energy : ℚ
  anxiety : ℚ
  sleep : ℚ
  deriving Repr, DecidableEq

/-- Chart projector (lines 344-355): most recent 30 entries, reversed to
chronological order. -/
def moodTrendData (c : List MoodEntry) : List ChartPoint :=
  ((c.take 30).reverse).map fun e =>
    { date := dayOf e.timestamp, mood := e.mood, energy := e.energy,
      anxiety := e.anxiety, sleep := e.sleep }

/-! Definitions written from the words of the specification, used by the
refinement claims about the aggregator formulas. -/

/-- Arithmetic mean of a list of numbers with the empty mean defined as 0,
as the specification words it. -/
def specAvg (xs : List ℚ) : ℚ :=
  if xs = [] then 0 else xs.sum / (xs.length : ℚ)

/-- Subset of entries with now - createdAtTimestamp below 7 days, as the
specification words it. -/
def specLast7 (c : List MoodEntry) (now : Int) : List MoodEntry :=
  c.filter fun e => now - e.timestamp < 7 * msPerDay

/-- Wellness-score formula exactly as the specification states it:
round of the weighted combination over the last-7-days subset, meditation
absent. -/
def specWellnessScore (c : List MoodEntry) (now : Int) : ℤ :=
  jsRound ((specAvg ((specLast7 c now).map (·.mood)) * 0.3 +
    specAvg ((specLast7 c now).map (·.energy)) * 0.2 +
    (10 - specAvg ((specLast7 c now).map (·.anxiety))) * 0.2 +
    specAvg ((specLast7 c now).map (·.sleep)) * 0.15 +
    ((((specLast7 c now).filter (·.exercise)).length : ℚ) / 7 * 10) * 0.1 +
    ((((specLast7 c now).filter (·.social)).length : ℚ) / 7 * 10) * 0.05) * 10)

/-- Prior-week subset as claim C8 words it: creation time in the
half-open interval from now minus 14 days (included) up to now minus
7 days (excluded). -/
def specPrevWeekClaimed (c : List MoodEntry) (now : Int) : List MoodEntry :=
  c.filter fun e =>
    now - 14 * msPerDay ≤ e.timestamp ∧ e.timestamp < now - 7 * msPerDay

/-- Mood delta as claim C8 words it, with the zero default for an empty
prior-week subset. -/
def specMoodChangeClaimed (c : List MoodEntry) (now : Int) : ℚ :=
  specAvg ((specLast7 c now).map (·.mood)) -
    specAvg ((specPrevWeekClaimed c now).map (·.mood))

/-- Prior-week subset with the interval open at both ends, matching the
source filter: strictly newer than now minus 14 days and strictly older
than now minus 7 days. -/
def specPrevWeekOpen (c : List MoodEntry) (now : Int) : List MoodEntry :=
  c.filter fun e =>
    now - 14 * msPerDay < e.timestamp ∧ e.timestamp < now - 7 * msPerDay

/-- Mood delta over the open prior-week interval, the amended reading of
claim C8. -/
def specMoodChangeOpen (c : List MoodEntry) (now : Int) : ℚ :=
  specAvg ((specLast7 c now).map (·.mood)) -
    specAvg ((specPrevWeekOpen c now).map (·.mood))

/-! Helper lemmas. -/

/-- The source average with the or-zero guard equals the specification
average of the projected list. -/
theorem avgBy_eq_specAvg (f : MoodEntry → ℚ) (l : List MoodEntry) :
    avgBy f l = specAvg (l.map f) := by
  rcases l with _ | ⟨a, t⟩ <;> simp [avgBy, specAvg]

/-- The source last-7-days filter is the specification subset. -/
theorem last7Days_eq_specLast7 (c : List MoodEntry) (now : Int) :
    last7Days c now = specLast7 c now := rfl

/-- Eight entries splitting into four exercise days at mood 8 and four
non-exercise days at mood 5, the concrete scenario named by claim C4
(mood difference exactly 3). -/
def exerciseSplitWeek : List MoodEntry :=
  [mkEntry 100 8 5 5 6 true false false,
   mkEntry 200 8 5 5 6 true false false,
   mkEntry 300 8 5 5 6 true false false,
   mkEntry 400 8 5 5 6 true false false,
   mkEntry 500 5 5 5 6 false false false,
   mkEntry 600 5 5 5 6 false false false,
   mkEntry 700 5 5 5 6 false false false,
   mkEntry 800 5 5 5 6 false false false]

/-- Evaluation of the detector on the split week: the mood difference is
exactly 3 and the single emitted pattern carries confidence 45. -/
theorem patterns_exerciseSplitWeek_eval :
    exerciseMoodDiff exerciseSplitWeek = 3 ∧
      patterns exerciseSplitWeek =
        [{ type := .booster, title := "Exercise Boosts Your Mood",
           confidence := 45, icon := .dumbbell }] := by
  constructor
  · norm_num [exerciseMoodDiff, avgMoodWithExercise, avgMoodWithoutExercise,
      withExercise, withoutExercise, exerciseSplitWeek, mkEntry, List.filter]
  · norm_num +decide [patterns, exercisePattern, socialPattern, sleepPattern,
      dayPattern, meditationPattern, exerciseMoodDiff, avgMoodWithExercise,
      avgMoodWithoutExercise, withExercise, withoutExercise, withSocial,
      withoutSocial, goodSleep, poorSleep, withMeditation, dayAverages,
      weekdayKeys, weekdayOf, dayOf, msPerDay, bestDay, worstDay,
      moodsOnWeekday, socialMoodDiff, sleepMoodDiff, meditationAnxietyDrop,
      exerciseSplitWeek, mkEntry, List.filter, jsRound, Rat.floor_def']

/-- C5: a collection with fewer than 7 entries yields the empty pattern
list, whatever the entries contain; this is the ordinary insufficient-data
result, not an error. -/
theorem patterns_empty_below_seven (c : List MoodEntry) (h : c.length < 7) :
    patterns c = [] := by
  simp [patterns, h]

/-- Witness for C5 at a concrete one-entry collection. -/
theorem patterns_empty_below_seven_witness :
    ([mkEntry 0 5 5 5 5 false false false] : List MoodEntry).length < 7 ∧
      patterns [mkEntry 0 5 5 5 5 false false false] = [] :=
  ⟨by decide, patterns_empty_below_seven _ (by decide)⟩

/-- C6: the empty collection produces the null snapshot, the empty
pattern list and the empty trend series, at every evaluation instant. -/
theorem empty_collection_outputs (now : Int) :
    stats [] now = none ∧ patterns [] = [] ∧ moodTrendData [] = [] :=
  ⟨rfl, rfl, rfl⟩

/-- C2: on a non-empty collection the aggregator returns a snapshot whose
wellness score is exactly the rounded weighted formula of the
specification, computed over the last-7-days subset with zero-defaulted
averages and without any meditation contribution. -/
theorem wellness_score_matches_spec (c : List MoodEntry) (now : Int)
    (h : c ≠ []) :
    stats c now = some (statsCore c now) ∧
      (statsCore c now).wellnessScore = specWellnessScore c now := by
  constructor
  · simp [stats, List.length_eq_zero, h]
  · simp [statsCore, wellnessScore, specWellnessScore, avgMood, avgEnergy,
      avgAnxiety, avgSleep, exerciseCount, socialCount, avgBy_eq_specAvg,
      last7Days_eq_specLast7]

/-- Witness for C2 at a concrete two-entry collection. -/
theorem wellness_score_matches_spec_witness :
    ([mkEntry 0 5 5 5 5 false false false, mkEntry 1 6 6 6 6 true true true]
        : List MoodEntry) ≠ [] ∧
      stats [mkEntry 0 5 5 5 5 false false false,
          mkEntry 1 6 6 6 6 true true true] 2 =
        some (statsCore [mkEntry 0 5 5 5 5 false false false,
          mkEntry 1 6 6 6 6 true true true] 2) ∧
      (statsCore [mkEntry 0 5 5 5 5 false false false,
          mkEntry 1 6 6 6 6 true true true] 2).wellnessScore =
        specWellnessScore [mkEntry 0 5 5 5 5 false false false,
          mkEntry 1 6 6 6 6 true true true] 2 :=
  ⟨by decide, wellness_score_matches_spec _ _ (by decide)⟩

/-- C7: on a non-empty collection the aggregator always returns a
snapshot, every field of which is a totally defined exact number; in
particular, when no entry lies in the last-7-days window all four
averages are exactly 0 rather than an undefined value. -/
theorem stats_total_with_zero_defaults (c : List MoodEntry) (now : Int)
    (h : c ≠ []) :
    stats c now = some (statsCore c now) ∧
      (last7Days c now = [] →
        (statsCore c now).avgMood = 0 ∧ (statsCore c now).avgEnergy = 0 ∧
          (statsCore c now).avgAnxiety = 0 ∧ (statsCore c now).avgSleep = 0) := by
  refine ⟨by simp [stats, List.length_eq_zero, h], fun h7 => ?_⟩
  simp [statsCore, avgMood, avgEnergy, avgAnxiety, avgSleep, h7, avgBy]

/-- Witness for C7: one entry far older than the window, so the
last-7-days subset is empty and every average defaults to 0. -/
theorem stats_total_with_zero_defaults_witness :
    ([mkEntry 0 9 9 9 9 true true true] : List MoodEntry) ≠ [] ∧
      last7Days [mkEntry 0 9 9 9 9 true true true] (20 * msPerDay) = [] ∧
      ((statsCore [mkEntry 0 9 9 9 9 true true true] (20 * msPerDay)).avgMood = 0 ∧
        (statsCore [mkEntry 0 9 9 9 9 true true true] (20 * msPerDay)).avgEnergy = 0 ∧
        (statsCore [mkEntry 0 9 9 9 9 true true true] (20 * msPerDay)).avgAnxiety = 0 ∧
        (statsCore [mkEntry 0 9 9 9 9 true true true] (20 * msPerDay)).avgSleep = 0) :=
  ⟨by decide, by decide,
    (stats_total_with_zero_defaults _ _ (by decide)).2 (by decide)⟩

/-- Lower bound of the guarded average from lower bounds of the field. -/
theorem avgBy_nonneg (f : MoodEntry → ℚ) (l : List MoodEntry)
    (h : ∀ e ∈ l, 0 ≤ f e) : 0 ≤ avgBy f l := by
  unfold avgBy
  split
  · exact le_refl 0
  · refine div_nonneg (List.sum_nonneg ?_) (Nat.cast_nonneg _)
    intro x hx
    rcases List.mem_map.1 hx with ⟨e, he, rfl⟩
    exact h e he

/-- Upper bound of the guarded average from upper bounds of the field. -/
theorem avgBy_le (f : MoodEntry → ℚ) (l : List MoodEntry) (B : ℚ)
    (hB : 0 ≤ B) (h : ∀ e ∈ l, f e ≤ B) : avgBy f l ≤ B := by
  unfold avgBy
  split
  · exact hB
  · rename_i hl
    have hl' : 0 < (l.length : ℚ) := by
      exact_mod_cast Nat.pos_of_ne_zero hl
    rw [div_le_iff₀ hl']
    have hsum : (l.map f).sum ≤ (l.map f).length • B := by
      refine List.sum_le_card_nsmul _ _ ?_
      intro x hx
      rcases List.mem_map.1 hx with ⟨e, he, rfl⟩
      exact h e he
    calc (l.map f).sum ≤ (l.map f).length • B := hsum
      _ = B * (l.length : ℚ) := by
          rw [List.length_map, nsmul_eq_mul, mul_comm]

/-- C1 amended: when at most 7 entries fall in the last-7-days window
(so the activity counts cannot exceed 7) and every entry keeps its four
scales inside the closed range 0 to 10, the wellness score is an integer
between 0 and 100. -/
theorem wellness_score_in_range (c : List MoodEntry) (now : Int)
    (hrange : ∀ e ∈ c, (0 ≤ e.mood ∧ e.mood ≤ 10) ∧
      (0 ≤ e.energy ∧ e.energy ≤ 10) ∧ (0 ≤ e.anxiety ∧ e.anxiety ≤ 10) ∧
      (0 ≤ e.sleep ∧ e.sleep ≤ 10))
    (hcount : (last7Days c now).length ≤ 7) :
    0 ≤ wellnessScore c now ∧ wellnessScore c now ≤ 100 := by
  have hsub : ∀ e ∈ last7Days c now, e ∈ c :=
    fun e he => List.mem_of_mem_filter he
  have hm0 : 0 ≤ avgMood c now :=
    avgBy_nonneg _ _ fun e he => ((hrange e (hsub e he)).1).1
  have hm1 : avgMood c now ≤ 10 :=
    avgBy_le _ _ 10 (by norm_num) fun e he => ((hrange e (hsub e he)).1).2
  have he0 : 0 ≤ avgEnergy c now :=
    avgBy_nonneg _ _ fun e he => ((hrange e (hsub e he)).2.1).1
  have he1 : avgEnergy c now ≤ 10 :=
    avgBy_le _ _ 10 (by norm_num) fun e he => ((hrange e (hsub e he)).2.1).2
  have ha0 : 0 ≤ avgAnxiety c now :=
    avgBy_nonneg _ _ fun e he => ((hrange e (hsub e he)).2.2.1).1
  have ha1 : avgAnxiety c now ≤ 10 :=
    avgBy_le _ _ 10 (by norm_num) fun e he => ((hrange e (hsub e he)).2.2.1).2
  have hs0 : 0 ≤ avgSleep c now :=
    avgBy_nonneg _ _ fun e he => ((hrange e (hsub e he)).2.2.2).1
  have hs1 : avgSleep c now ≤ 10 :=
    avgBy_le _ _ 10 (by norm_num) fun e he => ((hrange e (hsub e he)).2.2.2).2
  have hecN : exerciseCount c now ≤ 7 :=
    le_trans (List.length_filter_le _ _) hcount
  have hscN : socialCount c now ≤ 7 :=
    le_trans (List.length_filter_le _ _) hcount
  have hec1 : (exerciseCount c now : ℚ) ≤ 7 := by exact_mod_cast hecN
  have hsc1 : (socialCount c now : ℚ) ≤ 7 := by exact_mod_cast hscN
  have hec0 : (0 : ℚ) ≤ (exerciseCount c now : ℚ) := Nat.cast_nonneg _
  have hsc0 : (0 : ℚ) ≤ (socialCount c now : ℚ) := Nat.cast_nonneg _
  have hX0 : 0 ≤ (avgMood c now * 0.3 + avgEnergy c now * 0.2 +
      (10 - avgAnxiety c now) * 0.2 + avgSleep c now * 0.15 +
      ((exerciseCount c now : ℚ) / 7 * 10) * 0.1 +
      ((socialCount c now : ℚ) / 7 * 10) * 0.05) * 10 := by
    nlinarith
  have hX1 : (avgMood c now * 0.3 + avgEnergy c now * 0.2 +
      (10 - avgAnxiety c now) * 0.2 + avgSleep c now * 0.15 +
      ((exerciseCount c now : ℚ) / 7 * 10) * 0.1 +
      ((socialCount c now : ℚ) / 7 * 10) * 0.05) * 10 ≤ 100 := by
    nlinarith
  unfold wellnessScore
  rw [jsRound_eq_floor]
  constructor
  · refine Int.le_floor.2 ?_
    push_cast
    linarith
  · have hlt : (⌊(avgMood c now * 0.3 + avgEnergy c now * 0.2 +
        (10 - avgAnxiety c now) * 0.2 + avgSleep c now * 0.15 +
        ((exerciseCount c now : ℚ) / 7 * 10) * 0.1 +
        ((socialCount c now : ℚ) / 7 * 10) * 0.05) * 10 + 1/2⌋ : ℤ) < 101 := by
      refine Int.floor_lt.2 ?_
      push_cast
      linarith
    omega

/-- Eight in-window entries at the top of every scale with exercise and
social marked, used to push the wellness score beyond 100. -/
def overloadedWeek : List MoodEntry :=
  [mkEntry (7 * msPerDay - 1) 10 10 0 10 true true false,
   mkEntry (7 * msPerDay - 2) 10 10 0 10 true true false,
   mkEntry (7 * msPerDay - 3) 10 10 0 10 true true false,
   mkEntry (7 * msPerDay - 4) 10 10 0 10 true true false,
   mkEntry (7 * msPerDay - 5) 10 10 0 10 true true false,
   mkEntry (7 * msPerDay - 6) 10 10 0 10 true true false,
   mkEntry (7 * msPerDay - 7) 10 10 0 10 true true false,
   mkEntry (7 * msPerDay - 8) 10 10 0 10 true true false]

/-- Counterexample to C1 as stated: all four scales of every entry lie in
the closed range 0 to 10, yet with eight entries inside the 7-day window
the wellness score reaches 102. -/
theorem wellness_score_range_cex :
    (∀ e ∈ overloadedWeek, (0 ≤ e.mood ∧ e.mood ≤ 10) ∧
      (0 ≤ e.energy ∧ e.energy ≤ 10) ∧ (0 ≤ e.anxiety ∧ e.anxiety ≤ 10) ∧
      (0 ≤ e.sleep ∧ e.sleep ≤ 10)) ∧
      wellnessScore overloadedWeek (7 * msPerDay) = 102 := by
  constructor
  · decide
  · norm_num +decide [wellnessScore, avgMood, avgEnergy, avgAnxiety, avgSleep,
      exerciseCount, socialCount, last7Days, avgBy, overloadedWeek, mkEntry,
      msPerDay, List.filter, jsRound, Rat.floor_def']

/-- Witness for the amended C1 at a concrete two-entry collection. -/
theorem wellness_score_in_range_witness :
    (∀ e ∈ ([mkEntry 0 5 5 5 5 false false false,
        mkEntry 1 6 6 6 6 true true true] : List MoodEntry),
      (0 ≤ e.mood ∧ e.mood ≤ 10) ∧ (0 ≤ e.energy ∧ e.energy ≤ 10) ∧
        (0 ≤ e.anxiety ∧ e.anxiety ≤ 10) ∧ (0 ≤ e.sleep ∧ e.sleep ≤ 10)) ∧
      (last7Days [mkEntry 0 5 5 5 5 false false false,
        mkEntry 1 6 6 6 6 true true true] 2).length ≤ 7 ∧
      (0 ≤ wellnessScore [mkEntry 0 5 5 5 5 false false false,
          mkEntry 1 6 6 6 6 true true true] 2 ∧
        wellnessScore [mkEntry 0 5 5 5 5 false false false,
          mkEntry 1 6 6 6 6 true true true] 2 ≤ 100) :=
  ⟨by decide, by decide, wellness_score_in_range _ _ (by decide) (by decide)⟩

/-- The source prior-week filter agrees with the open-interval subset of
the amended claim C8. -/
theorem prevWeek_eq_specPrevWeekOpen (c : List MoodEntry) (now : Int) :
    prevWeek c now = specPrevWeekOpen c now := by
  unfold prevWeek specPrevWeekOpen
  refine List.filter_congr ?_
  intro e _
  exact decide_eq_decide.2 (and_comm)

/-- C8 amended: on a non-empty collection the mood delta equals the
last-7-days mean mood minus the mean mood over the interval open at both
ends, so an entry created exactly 14 days ago is excluded from the prior
week, and one created exactly 7 days ago belongs to neither week; an
empty prior-week subset contributes 0. -/
theorem mood_change_open_window (c : List MoodEntry) (now : Int)
    (h : c ≠ []) :
    stats c now = some (statsCore c now) ∧
      (statsCore c now).moodChange = specMoodChangeOpen c now := by
  constructor
  · simp [stats, List.length_eq_zero, h]
  · simp [statsCore, moodChange, prevWeekAvgMood, specMoodChangeOpen,
      avgMood, avgBy_eq_specAvg, last7Days_eq_specLast7,
      prevWeek_eq_specPrevWeekOpen]

/-- Single entry created exactly 14 days before the evaluation instant. -/
def boundaryEntry : List MoodEntry := [mkEntry 0 10 5 5 5 false false false]

/-- Counterexample to C8 as stated: with one mood-10 entry created exactly
14 days ago, the code excludes it from the prior week and reports delta 0,
while the claimed closed-left interval would include it and give -10. -/
theorem mood_change_boundary_cex :
    (statsCore boundaryEntry (14 * msPerDay)).moodChange = 0 ∧
      specMoodChangeClaimed boundaryEntry (14 * msPerDay) = -10 ∧
      (statsCore boundaryEntry (14 * msPerDay)).moodChange ≠
        specMoodChangeClaimed boundaryEntry (14 * msPerDay) := by
  refine ⟨?_, ?_, ?_⟩ <;>
    norm_num +decide [statsCore, moodChange, avgMood, prevWeekAvgMood,
      prevWeek, last7Days, avgBy, specMoodChangeClaimed, specAvg,
      specPrevWeekClaimed, specLast7, boundaryEntry, mkEntry, msPerDay,
      List.filter]

/-- Witness for the amended C8 at a concrete two-entry collection. -/
theorem mood_change_open_window_witness :
    ([mkEntry 0 5 5 5 5 false false false, mkEntry 1 6 6 6 6 true true true]
        : List MoodEntry) ≠ [] ∧
      (statsCore [mkEntry 0 5 5 5 5 false false false,
          mkEntry 1 6 6 6 6 true true true] 2).moodChange =
        specMoodChangeOpen [mkEntry 0 5 5 5 5 false false false,
          mkEntry 1 6 6 6 6 true true true] 2 :=
  ⟨by decide, (mood_change_open_window _ _ (by decide)).2⟩

/-- Entry logged on calendar day 20. -/
def todayEntry : MoodEntry := mkEntry (20 * msPerDay + 500) 5 5 5 5 false false false

/-- Second entry logged on the same calendar day 20. -/
def todayEntryDup : MoodEntry := mkEntry (20 * msPerDay + 600) 5 5 5 5 false false false

/-- Entry logged on calendar day 19. -/
def yesterdayEntry : MoodEntry := mkEntry (19 * msPerDay + 500) 5 5 5 5 false false false

/-- Counterexample to C3 as stated: a collection holding only a
yesterday entry has streak 0, yet adding a today entry yields streak 2
rather than 0 + 1; and a collection covering today and yesterday has
streak 2, yet adding a second entry on today drops the computed streak to
1 instead of leaving it unchanged, because the index walk then compares
the duplicate against yesterday. -/
theorem streak_monotonicity_cex :
    currentStreak [yesterdayEntry] (20 * msPerDay + 1000) = 0 ∧
      currentStreak [todayEntry, yesterdayEntry] (20 * msPerDay + 1000) = 2 ∧
      currentStreak [todayEntryDup, todayEntry, yesterdayEntry]
        (20 * msPerDay + 1000) = 1 := by
  decide

/-- The exercise heuristic only emits the dumbbell icon. -/
theorem exercisePattern_icon (c : List MoodEntry) (p : Pattern)
    (h : exercisePattern c = some p) : p.icon = PatternIcon.dumbbell := by
  unfold exercisePattern at h
  split at h
  · split at h
    · cases h
      rfl
    · cases h
  · cases h

/-- The social heuristic only emits the users icon. -/
theorem socialPattern_icon (c : List MoodEntry) (p : Pattern)
    (h : socialPattern c = some p) : p.icon = PatternIcon.users := by
  unfold socialPattern at h
  split at h
  · split at h
    · cases h
      rfl
    · cases h
  · cases h

/-- The sleep heuristic only emits the moon icon. -/
theorem sleepPattern_icon (c : List MoodEntry) (p : Pattern)
    (h : sleepPattern c = some p) : p.icon = PatternIcon.moon := by
  unfold sleepPattern at h
  split at h
  · split at h
    · cases h
      rfl
    · cases h
  · cases h

/-- The day-of-week heuristic only emits the calendar icon. -/
theorem dayPattern_icon (c : List MoodEntry) (p : Pattern)
    (h : dayPattern c = some p) : p.icon = PatternIcon.calendar := by
  unfold dayPattern at h
  split at h
  · cases h
    rfl
  · cases h

/-- The meditation heuristic only emits the brain icon. -/
theorem meditationPattern_icon (c : List MoodEntry) (p : Pattern)
    (h : meditationPattern c = some p) : p.icon = PatternIcon.brain := by
  unfold meditationPattern at h
  split at h
  · split at h
    · cases h
      rfl
    · cases h
  · cases h

/-- Every member of the pattern list comes from one of the five
heuristics. -/
theorem mem_patterns (c : List MoodEntry) (p : Pattern) (h : p ∈ patterns c) :
    exercisePattern c = some p ∨ socialPattern c = some p ∨
      sleepPattern c = some p ∨ dayPattern c = some p ∨
      meditationPattern c = some p := by
  unfold patterns at h
  split at h
  · cases h
  · simp only [List.mem_append, Option.mem_toList, Option.mem_def] at h
    tauto

/-- A pattern emitted by the exercise heuristic is in the output once the
seven-entry precondition holds. -/
theorem exercisePattern_mem (c : List MoodEntry) (p : Pattern)
    (h7 : ¬ c.length < 7) (h : exercisePattern c = some p) :
    p ∈ patterns c := by
  unfold patterns
  rw [if_neg h7]
  simp [Option.mem_toList, Option.mem_def, h]

/-- A pattern emitted by the day-of-week heuristic is in the output once
the seven-entry precondition holds. -/
theorem dayPattern_mem (c : List MoodEntry) (p : Pattern)
    (h7 : ¬ c.length < 7) (h : dayPattern c = some p) :
    p ∈ patterns c := by
  unfold patterns
  rw [if_neg h7]
  simp [Option.mem_toList, Option.mem_def, h]

/-- Mapped icons of a heuristic result form a sublist of the singleton of
its fixed icon. -/
theorem optIcon_sublist (o : Option Pattern) (a : PatternIcon)
    (h : ∀ p, o = some p → p.icon = a) :
    (o.toList.map Pattern.icon).Sublist [a] := by
  cases o with
  | none => simp
  | some p =>
    simp [h p rfl, List.Sublist.refl]

/-- C10: the detector output always lists the heuristics in the fixed
order exercise, social, sleep, day-of-week, meditation, identified by
their icons, with at most one pattern per heuristic, hence at most five
patterns and no re-sorting by confidence. -/
theorem patterns_order_and_bound (c : List MoodEntry) :
    ((patterns c).map Pattern.icon).Sublist
        [PatternIcon.dumbbell, PatternIcon.users, PatternIcon.moon,
          PatternIcon.calendar, PatternIcon.brain] ∧
      (patterns c).length ≤ 5 := by
  have hsub : ((patterns c).map Pattern.icon).Sublist
      [PatternIcon.dumbbell, PatternIcon.users, PatternIcon.moon,
        PatternIcon.calendar, PatternIcon.brain] := by
    unfold patterns
    split
    · simp
    · rw [List.map_append, List.map_append, List.map_append, List.map_append]
      simp only [List.append_assoc]
      exact ((optIcon_sublist _ _ (exercisePattern_icon c)).append
        ((optIcon_sublist _ _ (socialPattern_icon c)).append
          ((optIcon_sublist _ _ (sleepPattern_icon c)).append
            ((optIcon_sublist _ _ (dayPattern_icon c)).append
              (optIcon_sublist _ _ (meditationPattern_icon c))))))
  refine ⟨hsub, ?_⟩
  have hlen := hsub.length_le
  simpa using hlen

/-- C4 amended: with at least 7 entries and both exercise groups larger
than 3, a dumbbell pattern is emitted exactly when the exercise-group
mood advantage exceeds 1, and any emitted dumbbell pattern is a booster
with confidence min 95 (round (diff * 15)). -/
theorem exercise_pattern_contract (c : List MoodEntry)
    (h7 : 7 ≤ c.length)
    (hx : 3 < (withExercise c).length)
    (hn : 3 < (withoutExercise c).length) :
    ((∃ p ∈ patterns c, p.icon = PatternIcon.dumbbell) ↔
        1 < exerciseMoodDiff c) ∧
      ∀ p ∈ patterns c, p.icon = PatternIcon.dumbbell →
        p.type = PatternType.booster ∧
          p.confidence = min 95 (jsRound (exerciseMoodDiff c * 15)) := by
  have hnot7 : ¬ c.length < 7 := by omega
  constructor
  · constructor
    · rintro ⟨p, hp, hicon⟩
      rcases mem_patterns c p hp with h | h | h | h | h
      · unfold exercisePattern at h
        rw [if_pos ⟨hx, hn⟩] at h
        by_contra hdiff
        rw [if_neg hdiff] at h
        cases h
      · have hi := socialPattern_icon c p h
        rw [hicon] at hi
        exact absurd hi (by decide)
      · have hi := sleepPattern_icon c p h
        rw [hicon] at hi
        exact absurd hi (by decide)
      · have hi := dayPattern_icon c p h
        rw [hicon] at hi
        exact absurd hi (by decide)
      · have hi := meditationPattern_icon c p h
        rw [hicon] at hi
        exact absurd hi (by decide)
    · intro hdiff
      have hsome : exercisePattern c =
          some { type := .booster, title := "Exercise Boosts Your Mood",
                 confidence := min 95 (jsRound (exerciseMoodDiff c * 15)),
                 icon := .dumbbell } := by
        unfold exercisePattern
        rw [if_pos ⟨hx, hn⟩, if_pos hdiff]
      exact ⟨_, exercisePattern_mem c _ hnot7 hsome, rfl⟩
  · intro p hp hicon
    rcases mem_patterns c p hp with h | h | h | h | h
    · unfold exercisePattern at h
      rw [if_pos ⟨hx, hn⟩] at h
      split at h
      · cases h
        exact ⟨rfl, rfl⟩
      · cases h
    · have hi := socialPattern_icon c p h
      rw [hicon] at hi
      exact absurd hi (by decide)
    · have hi := sleepPattern_icon c p h
      rw [hicon] at hi
      exact absurd hi (by decide)
    · have hi := dayPattern_icon c p h
      rw [hicon] at hi
      exact absurd hi (by decide)
    · have hi := meditationPattern_icon c p h
      rw [hicon] at hi
      exact absurd hi (by decide)

/-- Counterexample to the concrete instance in C4: on the split week with
mood difference 3 the emitted dumbbell pattern has confidence 45, namely
min 95 (round (3 * 15)), not 95. -/
theorem exercise_confidence_cex :
    exerciseMoodDiff exerciseSplitWeek = 3 ∧
      (∃ p ∈ patterns exerciseSplitWeek,
        p.icon = PatternIcon.dumbbell ∧ p.confidence = 45) ∧
      ∀ p ∈ patterns exerciseSplitWeek,
        p.icon = PatternIcon.dumbbell → p.confidence ≠ 95 := by
  obtain ⟨hd, hp⟩ := patterns_exerciseSplitWeek_eval
  refine ⟨hd, ?_, ?_⟩
  · rw [hp]
    exact ⟨_, List.mem_singleton_self _, rfl, rfl⟩
  · rw [hp]
    intro p hpmem _
    rw [List.mem_singleton.1 hpmem]
    decide

/-- Witness for the amended C4, applied to the concrete split week. -/
theorem exercise_pattern_contract_witness :
    7 ≤ exerciseSplitWeek.length ∧
      3 < (withExercise exerciseSplitWeek).length ∧
      3 < (withoutExercise exerciseSplitWeek).length ∧
      (((∃ p ∈ patterns exerciseSplitWeek, p.icon = PatternIcon.dumbbell) ↔
          1 < exerciseMoodDiff exerciseSplitWeek) ∧
        ∀ p ∈ patterns exerciseSplitWeek, p.icon = PatternIcon.dumbbell →
          p.type = PatternType.booster ∧
            p.confidence = min 95 (jsRound (exerciseMoodDiff exerciseSplitWeek * 15))) :=
  ⟨by decide, by decide, by decide,
    exercise_pattern_contract exerciseSplitWeek (by decide) (by decide) (by decide)⟩

/-- The minimum-picking reduce of the worst-day computation is bounded by
its seed and by every list element. -/
theorem foldl_worst_le (l : List (Int × ℚ)) (init : Int × ℚ) :
    (l.foldl (fun worst curr => if curr.2 < worst.2 then curr else worst)
          init).2 ≤ init.2 ∧
      ∀ d ∈ l,
        (l.foldl (fun worst curr => if curr.2 < worst.2 then curr else worst)
          init).2 ≤ d.2 := by
  induction l generalizing init with
  | nil => exact ⟨le_refl _, by simp⟩
  | cons a t ih =>
    simp only [List.foldl_cons]
    have h := ih (if a.2 < init.2 then a else init)
    have hseed : (if a.2 < init.2 then a else init).2 ≤ init.2 := by
      split
      · exact le_of_lt (by assumption)
      · exact le_refl _
    have hfirst : (if a.2 < init.2 then a else init).2 ≤ a.2 := by
      split
      · exact le_refl _
      · exact le_of_not_lt (by assumption)
    refine ⟨le_trans h.1 hseed, ?_⟩
    intro d hd
    rcases List.mem_cons.1 hd with rfl | hd'
    · exact le_trans h.1 hfirst
    · exact h.2 d hd'

/-- The worst weekday found by the reduce has the least per-weekday mean
mood. -/
theorem worstDay_le (c : List MoodEntry) :
    ∀ d ∈ dayAverages c, (worstDay c).2 ≤ d.2 := by
  unfold worstDay
  exact (foldl_worst_le _ _).2

/-- C9: with at least 7 entries, the day heuristic is suppressed whenever
fewer than 5 distinct weekdays occur, and otherwise a spread above 1.5
between the best and the worst per-weekday mean emits a calendar pattern
with fixed confidence 75 naming the worst weekday. -/
theorem day_pattern_contract (c : List MoodEntry) (h7 : 7 ≤ c.length) :
    ((weekdayKeys c).length < 5 →
        ∀ p ∈ patterns c, p.icon ≠ PatternIcon.calendar) ∧
      (5 ≤ (weekdayKeys c).length →
        (1.5 : ℚ) < (bestDay c).2 - (worstDay c).2 →
        (∀ d ∈ dayAverages c, (worstDay c).2 ≤ d.2) ∧
          ∃ p ∈ patterns c, p.icon = PatternIcon.calendar ∧
            p.confidence = 75 ∧
            p.title = weekdayName (worstDay c).1 ++ "s Are Harder for You") := by
  have hlen : (dayAverages c).length = (weekdayKeys c).length := by
    simp [dayAverages]
  have hnot7 : ¬ c.length < 7 := by omega
  constructor
  · intro hlt p hp hic
    have hday : dayPattern c = none := by
      unfold dayPattern
      rw [if_neg]
      rintro ⟨h5, -⟩
      omega
    rcases mem_patterns c p hp with h | h | h | h | h
    · have hi := exercisePattern_icon c p h
      rw [hi] at hic
      exact absurd hic (by decide)
    · have hi := socialPattern_icon c p h
      rw [hi] at hic
      exact absurd hic (by decide)
    · have hi := sleepPattern_icon c p h
      rw [hi] at hic
      exact absurd hic (by decide)
    · rw [hday] at h
      cases h
    · have hi := meditationPattern_icon c p h
      rw [hi] at hic
      exact absurd hic (by decide)
  · intro h5 hspread
    refine ⟨worstDay_le c, ?_⟩
    have hsome : dayPattern c =
        some { type := .day,
               title := weekdayName (worstDay c).1 ++ "s Are Harder for You",
               confidence := 75, icon := .calendar } := by
      unfold dayPattern
      rw [if_pos ⟨by omega, hspread⟩]
    exact ⟨_, dayPattern_mem c _ hnot7 hsome, rfl, rfl, rfl⟩

/-- Seven entries on seven consecutive calendar days, one low-mood day
among six high-mood days, giving a per-weekday spread of 6. -/
def weekSpread : List MoodEntry :=
  [mkEntry (0 * msPerDay + 100) 2 5 5 6 false false false,
   mkEntry (1 * msPerDay + 100) 8 5 5 6 false false false,
   mkEntry (2 * msPerDay + 100) 8 5 5 6 false false false,
   mkEntry (3 * msPerDay + 100) 8 5 5 6 false false false,
   mkEntry (4 * msPerDay + 100) 8 5 5 6 false false false,
   mkEntry (5 * msPerDay + 100) 8 5 5 6 false false false,
   mkEntry (6 * msPerDay + 100) 8 5 5 6 false false false]

/-- Witness for C9, applied to the seven-weekday spread collection. -/
theorem day_pattern_contract_witness :
    7 ≤ weekSpread.length ∧ 5 ≤ (weekdayKeys weekSpread).length ∧
      (1.5 : ℚ) < (bestDay weekSpread).2 - (worstDay weekSpread).2 ∧
      ∃ p ∈ patterns weekSpread, p.icon = PatternIcon.calendar ∧
        p.confidence = 75 ∧
        p.title = weekdayName (worstDay weekSpread).1 ++ "s Are Harder for You" :=
  ⟨by decide, by decide,
    by
      norm_num +decide [bestDay, worstDay, dayAverages, weekdayKeys,
        moodsOnWeekday, weekdayOf, dayOf, msPerDay, weekSpread, mkEntry,
        List.filter],
    (((day_pattern_contract weekSpread (by decide)).2 (by decide)
      (by
        norm_num +decide [bestDay, worstDay, dayAverages, weekdayKeys,
          moodsOnWeekday, weekdayOf, dayOf, msPerDay, weekSpread, mkEntry,
          List.filter]))).2⟩

/-- Shifting the walk index by one equals evaluating the walk one day
earlier. -/
theorem streakAux_shift (now : Int) (l : List MoodEntry) :
    ∀ i : Nat, streakAux now l (i + 1) = streakAux (now - msPerDay) l i := by
  induction l with
  | nil => intro i; rfl
  | cons e t ih =>
    intro i
    simp only [streakAux]
    have harg : now - ((i : Nat) + 1 : Nat) * msPerDay =
        now - msPerDay - (i : Int) * msPerDay := by
      push_cast
      ring
    rw [harg, ih (i + 1)]

/-- Prepending an entry whose timestamp is newest keeps it first in the
descending sort. -/
theorem sort_cons_max (c : List MoodEntry) (e : MoodEntry)
    (hmax : ∀ x ∈ c, x.timestamp ≤ e.timestamp) :
    sortByTimestampDesc (e :: c) = e :: sortByTimestampDesc c := by
  unfold sortByTimestampDesc
  cases hs : List.insertionSort (fun a b => b.timestamp ≤ a.timestamp) c with
  | nil => simp [List.insertionSort, hs, List.orderedInsert]
  | cons b t =>
    have hb : b ∈ c := by
      have hmem : b ∈ List.insertionSort
          (fun a b => b.timestamp ≤ a.timestamp) c := by
        rw [hs]
        exact List.mem_cons_self _ _
      simpa [List.mem_insertionSort] using hmem
    simp [List.insertionSort, hs, List.orderedInsert, hmax b hb]

/-- C3 amended: adding an entry on the current calendar day whose
timestamp is not older than any existing entry yields a streak of 1 plus
the old collection's streak evaluated one day earlier.  That quantity is
N + 1 only when the old streak shifts back intact; in particular a second
same-day entry can lower the reported streak instead of preserving it. -/
theorem streak_prepend_today (c : List MoodEntry) (now : Int) (e : MoodEntry)
    (hmax : ∀ x ∈ c, x.timestamp ≤ e.timestamp)
    (hday : dayOf e.timestamp = dayOf now) :
    currentStreak (e :: c) now = 1 + currentStreak c (now - msPerDay) := by
  unfold currentStreak
  rw [sort_cons_max c e hmax]
  simp only [streakAux]
  rw [if_pos]
  · rw [streakAux_shift now _ 0]
    omega
  · simpa using hday

/-- Witness for the amended C3: prepending a today entry to a collection
holding one yesterday entry. -/
theorem streak_prepend_today_witness :
    (∀ x ∈ [yesterdayEntry], x.timestamp ≤ todayEntry.timestamp) ∧
      dayOf todayEntry.timestamp = dayOf (20 * msPerDay + 1000) ∧
      currentStreak [todayEntry, yesterdayEntry] (20 * msPerDay + 1000) =
        1 + currentStreak [yesterdayEntry] (20 * msPerDay + 1000 - msPerDay) :=
  ⟨by decide, by decide,
    streak_prepend_today [yesterdayEntry] (20 * msPerDay + 1000) todayEntry
      (by decide) (by decide)⟩
